import Mathlib

/-!
Shallow embedding of the WS-Discovery client of discovery.go (package onvif).

Go strings are modelled as lists of characters.  The external XML library
(mxj) is abstracted: a received datagram either fails to parse (none) or
yields the four string values the code extracts by path (some ParsedReply);
a path that is absent from the parsed document yields the empty string,
exactly as ValueForPathString does when its error value is discarded.
The net package calls of StartDiscovery are abstracted into a NetEnv record
holding the outcome of each fallible call and the sequence of reads the
UDP socket delivers before the deadline.
-/

namespace Onvif

/-- Device record as used by discovery.go and described by the spec:
fields ID, Name and XAddr, all strings.  The Go zero value has every
field equal to the empty string. -/
structure Device where
  ID : List Char
  Name : List Char
  XAddr : List Char
deriving DecidableEq

/-- Go zero value of the Device struct. -/
def zeroDevice : Device := ⟨[], [], []⟩

/-- Values extracted from a reply document that mxj.NewMapXml parsed
successfully: paths Envelope.Header.RelatesTo,
Envelope.Body.ProbeMatches.ProbeMatch.EndpointReference.Address,
Envelope.Body.ProbeMatches.ProbeMatch.Scopes and
Envelope.Body.ProbeMatches.ProbeMatch.XAddrs.  A path missing from the
document is the empty string. -/
structure ParsedReply where
  relatesTo : List Char
  endpointAddress : List Char
  scopes : List Char
  xAddrs : List Char
deriving DecidableEq

/-- Errors surfaced by the discovery code: an error from the net package
(setup, send or non-timeout read failure), the mxj parse error, the
sentinel errWrongDiscoveryResponse of line 14, and the error of line 144
(Device does not have any xAddr). -/
inductive DiscErr where
  | netErr (msg : List Char)
  | parseError
  | wrongDiscoveryResponse
  | noXAddr
deriving DecidableEq

/-- Go strings.Split(s, sep) for the single-character separator used by the
source (sep = a single space): the string is cut at every occurrence of the
separator and empty fields are kept; splitting the empty string gives one
empty field, never an empty slice. -/
def stringsSplitSpace : List Char → List (List Char)
  | [] => [[]]
  | c :: rest =>
    if c = ' ' then [] :: stringsSplitSpace rest
    else
      match stringsSplitSpace rest with
      | [] => [[c]]
      | t :: ts => (c :: t) :: ts

/-- Go strings.Replace(s, pat, rep, 1): the first occurrence of pat in s is
replaced by rep; if pat does not occur, s is returned unchanged.  With an
empty pat, Go inserts rep at the start of s. -/
def replaceFirstList (pat rep : List Char) : List Char → List Char
  | [] => if pat = [] then rep else []
  | c :: rest =>
    if pat.isPrefixOf (c :: rest) then rep ++ List.drop pat.length (c :: rest)
    else c :: replaceFirstList pat rep rest

/-- Go strings.Replace(s, "_", " ", -1) as used at line 135: with a
one-character pattern and a one-character replacement, replacing every
(necessarily non-overlapping) occurrence is exactly a character map. -/
def replaceAllChar (p r : Char) : List Char → List Char
  | [] => []
  | c :: rest => (if c = p then r else c) :: replaceAllChar p r rest

/-- Go strings.Contains(s, pat): pat occurs as a contiguous substring of s.
Used to state the spec sentences about an identifier containing the raw
URN scheme prefix. -/
def hasSubstr (pat : List Char) : List Char → Bool
  | [] => pat.isEmpty
  | c :: rest => pat.isPrefixOf (c :: rest) || hasSubstr pat rest

/-- The for loop of lines 130-138 of discovery.go: the first scope token
carrying the name scope prefix has the prefix stripped (first occurrence,
as strings.Replace with count 1 does) and every underscore replaced by a
space; if no token matches, the device name stays empty. -/
def scanNameScopes : List (List Char) → List Char
  | [] => []
  | scope :: rest =>
    if (("onvif://www.onvif.org/name/").toList).isPrefixOf scope then
      replaceAllChar '_' ' '
        (replaceFirstList (("onvif://www.onvif.org/name/").toList) [] scope)
    else scanNameScopes rest

/-- readDiscoveryResponse of discovery.go lines 109-153, over the
abstracted parse result.  The mxj parse failure keeps the zero Device;
an uncorrelated reply returns errWrongDiscoveryResponse; otherwise the
ID is the endpoint reference address with the first occurrence of
urn:uuid removed, the Name comes from the scope scan, and the XAddr is
element 0 of the space-split XAddrs value (guarded by the length check
of line 143). -/
def readDiscoveryResponse (messageID : List Char) (buffer : Option ParsedReply) :
    Device × Option DiscErr :=
  match buffer with
  | none => (zeroDevice, some DiscErr.parseError)
  | some mapXML =>
    if mapXML.relatesTo ≠ messageID then
      (zeroDevice, some DiscErr.wrongDiscoveryResponse)
    else
      let deviceID := replaceFirstList (("urn:uuid").toList) [] mapXML.endpointAddress
      let deviceName := scanNameScopes (stringsSplitSpace mapXML.scopes)
      let listXAddr := stringsSplitSpace mapXML.xAddrs
      if listXAddr.length = 0 then
        (zeroDevice, some DiscErr.noXAddr)
      else
        (⟨deviceID, deviceName, listXAddr.headI⟩, none)

/-- Terminal read event of the listen loop: either the deadline passed
(a net.Error whose Timeout() is true) or the read failed for another
reason. -/
inductive TermEvent where
  | timeout
  | readFail (msg : List Char)
deriving DecidableEq

/-- The read loop of discovery.go lines 81-103.  The datagrams delivered
before the terminal read event are given, already taken through the
abstract parse, in arrival order.  Each iteration parses one reply;
an error other than errWrongDiscoveryResponse returns the accumulated
results with that error (lines 97-99), and otherwise the device value is
appended (line 102) and the loop continues.  On timeout the accumulated
results are returned with no error (lines 88-89 and 105); any other read
error is returned with the accumulated results (line 91). -/
def discoveryLoop (requestID : List Char) :
    List (Option ParsedReply) → TermEvent → List Device → List Device × Option DiscErr
  | [], TermEvent.timeout, discoveryResults => (discoveryResults, none)
  | [], TermEvent.readFail msg, discoveryResults =>
    (discoveryResults, some (DiscErr.netErr msg))
  | buffer :: rest, term, discoveryResults =>
    let parsed := readDiscoveryResponse requestID buffer
    if parsed.2 ≠ none ∧ parsed.2 ≠ some DiscErr.wrongDiscoveryResponse then
      (discoveryResults, parsed.2)
    else
      discoveryLoop requestID rest term (discoveryResults ++ [parsed.1])

/-- Outcomes of the environment for one StartDiscovery call: the result of
each fallible net call (none meaning success, some msg the error), the
parse outcomes of the datagrams read before the terminal event, and the
terminal read event itself. -/
structure NetEnv where
  resolveLocal : Option (List Char)
  resolveMulticast : Option (List Char)
  listenUDP : Option (List Char)
  setDeadline : Option (List Char)
  writeToUDP : Option (List Char)
  payloads : List (Option ParsedReply)
  terminal : TermEvent

/-- StartDiscovery of discovery.go lines 17-106.  requestID stands for the
value uuid: followed by a fresh UUID v4 built at line 22; the request
construction and whitespace cleaning of lines 23-48 have no observable
effect on the result and are not modelled.  Each failing net call returns
the empty result list together with its error, in source order; when all
succeed the read loop runs. -/
def StartDiscovery (requestID : List Char) (env : NetEnv) :
    List Device × Option DiscErr :=
  let discoveryResults : List Device := []
  match env.resolveLocal with
  | some msg => (discoveryResults, some (DiscErr.netErr msg))
  | none =>
    match env.resolveMulticast with
    | some msg => (discoveryResults, some (DiscErr.netErr msg))
    | none =>
      match env.listenUDP with
      | some msg => (discoveryResults, some (DiscErr.netErr msg))
      | none =>
        match env.setDeadline with
        | some msg => (discoveryResults, some (DiscErr.netErr msg))
        | none =>
          match env.writeToUDP with
          | some msg => (discoveryResults, some (DiscErr.netErr msg))
          | none => discoveryLoop requestID env.payloads env.terminal discoveryResults

/-- Spec side reading used by claim C6: the whitespace separated tokens of
a string, that is the maximal nonempty runs of characters that are not
whitespace. -/
def wsTokensAux : List Char → List Char → List (List Char)
  | cur, [] => if cur = [] then [] else [cur.reverse]
  | cur, c :: rest =>
    if c.isWhitespace then
      if cur = [] then wsTokensAux [] rest else cur.reverse :: wsTokensAux [] rest
    else wsTokensAux (c :: cur) rest

/-- Spec side reading used by claim C6: the list of whitespace separated
tokens of a string. -/
def wsTokens (s : List Char) : List (List Char) := wsTokensAux [] s

/-- Go strings.Split never yields an empty slice: there is always at least
one field. -/
lemma stringsSplitSpace_ne_nil (s : List Char) : stringsSplitSpace s ≠ [] := by
  cases s with
  | nil => simp [stringsSplitSpace]
  | cons c rest =>
    simp only [stringsSplitSpace]
    by_cases h : c = ' '
    · simp [h]
    · simp only [if_neg h]
      cases hs : stringsSplitSpace rest <;> simp

/-- Removing a pattern that sits at the front of the string: Go
strings.Replace with count 1 deletes exactly that occurrence. -/
lemma replaceFirstList_strip (pat rep t : List Char) (hp : pat ≠ []) :
    replaceFirstList pat rep (pat ++ t) = rep ++ t := by
  cases pat with
  | nil => exact absurd rfl hp
  | cons p ps =>
    have hpre : (p :: ps).isPrefixOf (p :: (ps ++ t)) = true := by
      rw [List.isPrefixOf_iff_prefix]
      exact List.prefix_append (p :: ps) t
    show replaceFirstList (p :: ps) rep (p :: (ps ++ t)) = rep ++ t
    rw [replaceFirstList, if_pos hpre, List.length_cons, List.drop_succ_cons,
      List.drop_left]

/-- On a correlated, parseable reply the parser takes the accepting branch
and fills every Device field. -/
lemma readDiscoveryResponse_accept (messageID : List Char) (r : ParsedReply)
    (h : r.relatesTo = messageID) :
    readDiscoveryResponse messageID (some r) =
      (⟨replaceFirstList (("urn:uuid").toList) [] r.endpointAddress,
        scanNameScopes (stringsSplitSpace r.scopes),
        (stringsSplitSpace r.xAddrs).headI⟩, none) := by
  have hx := stringsSplitSpace_ne_nil r.xAddrs
  simp [readDiscoveryResponse, h, List.length_eq_zero, hx]

/-- A parseable reply is either accepted or rejected as uncorrelated; the
missing-address branch of line 144 is unreachable. -/
lemma readDiscoveryResponse_snd_cases (messageID : List Char) (r : ParsedReply) :
    (readDiscoveryResponse messageID (some r)).2 = none ∨
    (readDiscoveryResponse messageID (some r)).2 = some DiscErr.wrongDiscoveryResponse := by
  by_cases h : r.relatesTo = messageID
  · left
    rw [readDiscoveryResponse_accept messageID r h]
  · right
    simp [readDiscoveryResponse, h]

/-- Running the read loop over correlated, parseable replies only: every
reply is accepted and appended, in arrival order. -/
lemma discoveryLoop_all_correlated (requestID : List Char) (rs : List ParsedReply)
    (h : ∀ r ∈ rs, r.relatesTo = requestID) (acc : List Device) :
    discoveryLoop requestID (rs.map some) TermEvent.timeout acc
      = (acc ++ rs.map (fun r => (readDiscoveryResponse requestID (some r)).1), none) := by
  induction rs generalizing acc with
  | nil => simp [discoveryLoop]
  | cons r rest ih =>
    have hr := h r (List.mem_cons_self r rest)
    have hrest : ∀ x ∈ rest, x.relatesTo = requestID :=
      fun x hx => h x (List.mem_cons_of_mem r hx)
    simp only [List.map_cons, discoveryLoop, readDiscoveryResponse_accept requestID r hr]
    simp only [ne_eq, not_true_eq_false, false_and, if_false]
    rw [ih hrest]
    simp

/-- Running the read loop when a non-parseable datagram arrives after a run
of parseable ones: the loop aborts there with the mxj parse error, keeping
exactly the devices accumulated on the parseable run. -/
lemma discoveryLoop_parse_abort (requestID : List Char) (pre rest : List (Option ParsedReply))
    (term : TermEvent) (h : ∀ p ∈ pre, p.isSome = true) (acc : List Device) :
    discoveryLoop requestID (pre ++ none :: rest) term acc
      = ((discoveryLoop requestID pre TermEvent.timeout acc).1, some DiscErr.parseError) := by
  induction pre generalizing acc with
  | nil => simp [discoveryLoop, readDiscoveryResponse]
  | cons p ps ih =>
    obtain ⟨r, rfl⟩ := Option.isSome_iff_exists.mp (h p (List.mem_cons_self p ps))
    have hps : ∀ x ∈ ps, x.isSome = true :=
      fun x hx => h x (List.mem_cons_of_mem _ hx)
    rcases readDiscoveryResponse_snd_cases requestID r with he | he
    · simp only [List.cons_append, discoveryLoop, he]
      simp only [ne_eq, not_true_eq_false, false_and, if_false]
      exact ih hps _
    · simp only [List.cons_append, discoveryLoop, he]
      simp only [ne_eq, and_false, if_false]
      exact ih hps _

/-- If no scope token carries the name prefix, the scan leaves the name
empty. -/
lemma scanNameScopes_eq_nil (toks : List (List Char))
    (h : ∀ tok ∈ toks, (("onvif://www.onvif.org/name/").toList).isPrefixOf tok = false) :
    scanNameScopes toks = [] := by
  induction toks with
  | nil => rfl
  | cons s ss ih =>
    have hs := h s (List.mem_cons_self s ss)
    rw [scanNameScopes, if_neg (by simp only [hs]; decide)]
    exact ih (fun x hx => h x (List.mem_cons_of_mem s hx))

/-- The scan stops at the first token carrying the name prefix. -/
lemma scanNameScopes_append (pre : List (List Char)) (tok : List Char)
    (post : List (List Char))
    (hpre : ∀ s ∈ pre, (("onvif://www.onvif.org/name/").toList).isPrefixOf s = false)
    (htok : (("onvif://www.onvif.org/name/").toList).isPrefixOf tok = true) :
    scanNameScopes (pre ++ tok :: post)
      = replaceAllChar '_' ' '
          (replaceFirstList (("onvif://www.onvif.org/name/").toList) [] tok) := by
  induction pre with
  | nil =>
    rw [List.nil_append, scanNameScopes, if_pos htok]
  | cons s ss ih =>
    have hs := hpre s (List.mem_cons_self s ss)
    rw [List.cons_append, scanNameScopes, if_neg (by simp only [hs]; decide)]
    exact ih (fun x hx => hpre x (List.mem_cons_of_mem s hx))

/-- The first field of Go strings.Split(s, sep) for a one-character sep is
the part of s before the first separator. -/
lemma stringsSplitSpace_headI (s : List Char) :
    (stringsSplitSpace s).headI = s.takeWhile (fun c => c != ' ') := by
  induction s with
  | nil => rfl
  | cons c rest ih =>
    by_cases hc : c = ' '
    · simp [stringsSplitSpace, hc, List.takeWhile_cons]
    · cases hs : stringsSplitSpace rest with
      | nil => exact absurd hs (stringsSplitSpace_ne_nil rest)
      | cons t ts =>
        have ht : t = rest.takeWhile (fun c => c != ' ') := by
          rw [← ih, hs, List.headI_cons]
        simp [stringsSplitSpace, hc, hs, List.takeWhile_cons, bne_iff_ne, ht]

/-- C1: the claim says an uncorrelated reply contributes nothing to the
result list.  The code of lines 96-102 disagrees: the error check of line
97 deliberately lets errWrongDiscoveryResponse through, but the append of
line 102 is unconditional, so the zero Device produced for the uncorrelated
reply is appended.  This theorem evaluates the session at the failing
input: one parseable reply whose RelatesTo is uuid:other while the request
identifier is uuid:r, followed by the deadline; the result list holds the
zero Device instead of being empty. -/
theorem c1_uncorrelated_reply_appends_zero_device :
    StartDiscovery (("uuid:r").toList)
      ⟨none, none, none, none, none,
       [some ⟨("uuid:other").toList, ("urn:uuid:abc").toList, [],
          ("http://192.168.1.10/onvif/device_service").toList⟩],
       TermEvent.timeout⟩
      = ([zeroDevice], none) := by
  decide

/-- C2: the claim says an empty XAddrs list yields the distinct malformed
verdict of line 144.  The check of line 143 is dead code, because Go
strings.Split always returns at least one field: the parser never returns
the noXAddr error (first conjunct), and on a correlated parseable reply
whose XAddrs value is empty it returns an accepted Device with an empty
XAddr and no error (second conjunct, the failing input evaluated). -/
theorem c2_empty_xaddrs_accepted_not_malformed :
    (∀ (messageID : List Char) (buffer : Option ParsedReply),
        (readDiscoveryResponse messageID buffer).2 = none ∨
        (readDiscoveryResponse messageID buffer).2 = some DiscErr.parseError ∨
        (readDiscoveryResponse messageID buffer).2 = some DiscErr.wrongDiscoveryResponse) ∧
    readDiscoveryResponse (("uuid:r").toList)
        (some ⟨("uuid:r").toList, [], [], []⟩)
      = (⟨[], [], []⟩, none) := by
  constructor
  · intro messageID buffer
    cases buffer with
    | none =>
      right; left; rfl
    | some r =>
      rcases readDiscoveryResponse_snd_cases messageID r with h | h
      · left; exact h
      · right; right; exact h
  · decide

/-- C3: a sequence of N parseable replies, each carrying the session's
correlation identifier and a nonempty address list, produces exactly the N
devices obtained by parsing the replies, in arrival order. -/
theorem c3_correlated_replies_in_order (requestID : List Char) (rs : List ParsedReply)
    (hcorr : ∀ r ∈ rs, r.relatesTo = requestID)
    (_hx : ∀ r ∈ rs, r.xAddrs ≠ []) :
    StartDiscovery requestID
        ⟨none, none, none, none, none, rs.map some, TermEvent.timeout⟩
      = (rs.map (fun r => (readDiscoveryResponse requestID (some r)).1), none) := by
  simpa [StartDiscovery] using discoveryLoop_all_correlated requestID rs hcorr []

/-- Witness for C3 at two concrete correlated replies: both hypotheses are
discharged by computation and the two devices come out in arrival order. -/
theorem c3_correlated_replies_in_order_witness :
    StartDiscovery (("uuid:r").toList)
        ⟨none, none, none, none, none,
         ([⟨("uuid:r").toList, [], [], ("http://a").toList⟩,
           ⟨("uuid:r").toList, [], [], ("http://b").toList⟩] : List ParsedReply).map some,
         TermEvent.timeout⟩
      = ([⟨[], [], ("http://a").toList⟩, ⟨[], [], ("http://b").toList⟩], none) := by
  have h := c3_correlated_replies_in_order (("uuid:r").toList)
    [⟨("uuid:r").toList, [], [], ("http://a").toList⟩,
     ⟨("uuid:r").toList, [], [], ("http://b").toList⟩]
    (by decide) (by decide)
  exact h.trans (by decide)

/-- C7: when no reply arrives before the deadline the session returns the
empty device list and no error; the timeout is normal termination. -/
theorem c7_timeout_empty_success (requestID : List Char) :
    StartDiscovery requestID
        ⟨none, none, none, none, none, [], TermEvent.timeout⟩
      = ([], none) := rfl

/-- C10: whenever the parser reports an error (parse failure, uncorrelated
reply, or the missing-address branch) the Device value returned with it is
the zero Device, with all three fields empty. -/
theorem c10_error_returns_zero_device (messageID : List Char)
    (buffer : Option ParsedReply)
    (h : (readDiscoveryResponse messageID buffer).2.isSome = true) :
    (readDiscoveryResponse messageID buffer).1 = zeroDevice := by
  cases buffer with
  | none => rfl
  | some r =>
    by_cases hc : r.relatesTo = messageID
    · rw [readDiscoveryResponse_accept messageID r hc] at h
      simp at h
    · simp [readDiscoveryResponse, hc]

/-- Witness for C10: the parse-failure case at a concrete input. -/
theorem c10_error_returns_zero_device_witness :
    (readDiscoveryResponse (("uuid:r").toList) (none : Option ParsedReply)).1
      = zeroDevice :=
  c10_error_returns_zero_device (("uuid:r").toList) none (by decide)

/-- C4 counterexample: line 127 removes only the first occurrence of
urn:uuid, so a correlated reply whose endpoint reference address is
urn:uuidurn:uuid:42 is accepted and contributes a Device whose ID,
urn:uuid:42, still contains the raw URN scheme prefix. -/
theorem c4_first_occurrence_only_counterexample :
    (StartDiscovery (("uuid:r").toList)
        ⟨none, none, none, none, none,
         [some ⟨("uuid:r").toList, ("urn:uuidurn:uuid:42").toList, [],
            ("http://a").toList⟩],
         TermEvent.timeout⟩).1
      = [⟨("urn:uuid:42").toList, [], ("http://a").toList⟩] ∧
    hasSubstr (("urn:uuid").toList) (("urn:uuid:42").toList) = true := by
  decide

/-- C4 amended: the parser removes the first occurrence of the URN scheme
prefix from the endpoint reference address.  Hence for a correlated reply
whose address has the wire form of the prefix followed by a remainder that
does not itself contain the prefix, the resulting Device ID does not
contain the prefix; an address repeating the prefix keeps the later
copies. -/
theorem c4_id_free_of_urn_scheme_amended (messageID : List Char) (r : ParsedReply)
    (t : List Char) (hcorr : r.relatesTo = messageID)
    (haddr : r.endpointAddress = ("urn:uuid").toList ++ t)
    (ht : hasSubstr (("urn:uuid").toList) t = false) :
    hasSubstr (("urn:uuid").toList)
      ((readDiscoveryResponse messageID (some r)).1).ID = false := by
  rw [readDiscoveryResponse_accept messageID r hcorr]
  show hasSubstr (("urn:uuid").toList)
      (replaceFirstList (("urn:uuid").toList) [] r.endpointAddress) = false
  rw [haddr, replaceFirstList_strip _ _ _ (by decide), List.nil_append]
  exact ht

/-- Witness for C4 amended: a standard wire address urn:uuid:42 gives an
ID free of the prefix. -/
theorem c4_id_free_of_urn_scheme_amended_witness :
    hasSubstr (("urn:uuid").toList)
      ((readDiscoveryResponse (("uuid:r").toList)
          (some ⟨("uuid:r").toList, ("urn:uuid:42").toList, [],
            ("http://a").toList⟩)).1).ID = false :=
  c4_id_free_of_urn_scheme_amended (("uuid:r").toList)
    ⟨("uuid:r").toList, ("urn:uuid:42").toList, [], ("http://a").toList⟩
    ((":42").toList) (by decide) (by decide) (by decide)

/-- C5 counterexample: the scope list of this accepted correlated reply
contains the token made of the name prefix followed by Front_Door as a
space separated token, yet the Device name is Kitchen, because the loop of
lines 132-138 takes the first token carrying the prefix, not any such
token. -/
theorem c5_contains_token_not_sufficient_counterexample :
    ((("onvif://www.onvif.org/name/Front_Door").toList) ∈
        stringsSplitSpace
          (("onvif://www.onvif.org/name/Kitchen onvif://www.onvif.org/name/Front_Door").toList)) ∧
    (readDiscoveryResponse (("uuid:r").toList)
        (some ⟨("uuid:r").toList, [],
          ("onvif://www.onvif.org/name/Kitchen onvif://www.onvif.org/name/Front_Door").toList,
          ("http://a").toList⟩)).2 = none ∧
    (readDiscoveryResponse (("uuid:r").toList)
        (some ⟨("uuid:r").toList, [],
          ("onvif://www.onvif.org/name/Kitchen onvif://www.onvif.org/name/Front_Door").toList,
          ("http://a").toList⟩)).1.Name = ("Kitchen").toList ∧
    (((readDiscoveryResponse (("uuid:r").toList)
        (some ⟨("uuid:r").toList, [],
          ("onvif://www.onvif.org/name/Kitchen onvif://www.onvif.org/name/Front_Door").toList,
          ("http://a").toList⟩)).1.Name == ("Front Door").toList) = false) := by
  decide

/-- C5 amended: on an accepted correlated reply, when the first
space separated scope token carrying the name prefix is the prefix
followed by Front_Door, the Device name is Front Door (prefix stripped,
underscores turned into spaces); and when no scope token carries the name
prefix the name is empty and the reply is still accepted without error. -/
theorem c5_first_name_scope_amended (messageID : List Char) (r : ParsedReply)
    (hcorr : r.relatesTo = messageID) :
    (∀ pre post, stringsSplitSpace r.scopes
        = pre ++ (("onvif://www.onvif.org/name/Front_Door").toList) :: post →
      (∀ tok ∈ pre,
        (("onvif://www.onvif.org/name/").toList).isPrefixOf tok = false) →
      (readDiscoveryResponse messageID (some r)).1.Name = ("Front Door").toList) ∧
    ((∀ tok ∈ stringsSplitSpace r.scopes,
        (("onvif://www.onvif.org/name/").toList).isPrefixOf tok = false) →
      (readDiscoveryResponse messageID (some r)).1.Name = [] ∧
      (readDiscoveryResponse messageID (some r)).2 = none) := by
  constructor
  · intro pre post hsplit hpre
    rw [readDiscoveryResponse_accept messageID r hcorr]
    show scanNameScopes (stringsSplitSpace r.scopes) = ("Front Door").toList
    rw [hsplit, scanNameScopes_append pre _ post hpre (by decide)]
    decide
  · intro hnone
    refine ⟨?_, ?_⟩
    · rw [readDiscoveryResponse_accept messageID r hcorr]
      exact scanNameScopes_eq_nil _ hnone
    · rw [readDiscoveryResponse_accept messageID r hcorr]

/-- Witness for C5 amended: a single Front_Door name scope produces the
display name Front Door. -/
theorem c5_first_name_scope_amended_witness :
    (readDiscoveryResponse (("uuid:r").toList)
        (some ⟨("uuid:r").toList, [],
          ("onvif://www.onvif.org/name/Front_Door").toList,
          ("http://a").toList⟩)).1.Name = ("Front Door").toList :=
  (c5_first_name_scope_amended (("uuid:r").toList)
      ⟨("uuid:r").toList, [],
        ("onvif://www.onvif.org/name/Front_Door").toList,
        ("http://a").toList⟩ (by decide)).1
    [] [] (by decide) (by decide)

/-- C6 counterexample: the code splits XAddrs at single spaces and keeps
empty fields, not at whitespace-separated tokens.  A correlated reply whose
XAddrs value starts with a space is accepted with an empty XAddr, while its
first whitespace separated token is http://a. -/
theorem c6_whitespace_token_counterexample :
    (readDiscoveryResponse (("uuid:r").toList)
        (some ⟨("uuid:r").toList, [], [], (" http://a").toList⟩)).2 = none ∧
    (readDiscoveryResponse (("uuid:r").toList)
        (some ⟨("uuid:r").toList, [], [], (" http://a").toList⟩)).1.XAddr = [] ∧
    (wsTokens ((" http://a").toList)).headI = ("http://a").toList ∧
    (((readDiscoveryResponse (("uuid:r").toList)
        (some ⟨("uuid:r").toList, [], [], (" http://a").toList⟩)).1.XAddr
      == (wsTokens ((" http://a").toList)).headI) = false) := by
  decide

/-- C6 amended: for every accepted Device the XAddr is the part of the
reply's XAddrs value before its first space character (the whole value
when there is no space); for a well-formed list of addresses separated by
single spaces this is the first address. -/
theorem c6_xaddr_before_first_space_amended (messageID : List Char)
    (r : ParsedReply)
    (hacc : (readDiscoveryResponse messageID (some r)).2 = none) :
    (readDiscoveryResponse messageID (some r)).1.XAddr
      = r.xAddrs.takeWhile (fun c => c != ' ') := by
  have hcorr : r.relatesTo = messageID := by
    by_contra hc
    have hw : (readDiscoveryResponse messageID (some r)).2
        = some DiscErr.wrongDiscoveryResponse := by
      simp [readDiscoveryResponse, hc]
    rw [hacc] at hw
    exact Option.noConfusion hw
  rw [readDiscoveryResponse_accept messageID r hcorr]
  exact stringsSplitSpace_headI r.xAddrs

/-- Witness for C6 amended: a two-address list yields the first address. -/
theorem c6_xaddr_before_first_space_amended_witness :
    (readDiscoveryResponse (("uuid:r").toList)
        (some ⟨("uuid:r").toList, [], [],
          ("http://192.168.1.10/onvif/device_service http://192.168.1.10:8080/onvif").toList⟩)).1.XAddr
      = (("http://192.168.1.10/onvif/device_service http://192.168.1.10:8080/onvif").toList).takeWhile
          (fun c => c != ' ') :=
  c6_xaddr_before_first_space_amended (("uuid:r").toList)
    ⟨("uuid:r").toList, [], [],
      ("http://192.168.1.10/onvif/device_service http://192.168.1.10:8080/onvif").toList⟩
    (by decide)

/-- C8: a datagram that mxj cannot parse makes the session return at once
with the parse error, keeping exactly the devices accumulated on the run of
parseable datagrams before it; later datagrams and the terminal event do
not matter. -/
theorem c8_parse_failure_aborts (requestID : List Char)
    (pre rest : List (Option ParsedReply)) (term : TermEvent)
    (hpre : ∀ p ∈ pre, p.isSome = true) :
    StartDiscovery requestID
        ⟨none, none, none, none, none, pre ++ none :: rest, term⟩
      = ((StartDiscovery requestID
            ⟨none, none, none, none, none, pre, TermEvent.timeout⟩).1,
         some DiscErr.parseError) := by
  simpa [StartDiscovery] using
    discoveryLoop_parse_abort requestID pre rest term hpre []

/-- Witness for C8: one good reply, then a non-parseable datagram, then
another good reply; the session stops at the bad datagram with the single
device accumulated before it. -/
theorem c8_parse_failure_aborts_witness :
    StartDiscovery (("uuid:r").toList)
        ⟨none, none, none, none, none,
         [some ⟨("uuid:r").toList, [], [], ("http://a").toList⟩] ++ none ::
           [some ⟨("uuid:r").toList, [], [], ("http://b").toList⟩],
         TermEvent.timeout⟩
      = ([⟨[], [], ("http://a").toList⟩], some DiscErr.parseError) := by
  have h := c8_parse_failure_aborts (("uuid:r").toList)
    [some ⟨("uuid:r").toList, [], [], ("http://a").toList⟩]
    [some ⟨("uuid:r").toList, [], [], ("http://b").toList⟩]
    TermEvent.timeout (by decide)
  exact h.trans (by decide)

/-- C9: when address resolution, socket acquisition, deadline arming or the
multicast send fails, the call returns the empty list with that error, and
no reply is processed: the result does not depend on the datagrams or on
the terminal event. -/
theorem c9_setup_or_send_failure (requestID : List Char)
    (rl rm lu sd wr : Option (List Char)) (ps : List (Option ParsedReply))
    (term : TermEvent)
    (hfail : rl.isSome = true ∨ rm.isSome = true ∨ lu.isSome = true ∨
      sd.isSome = true ∨ wr.isSome = true) :
    (StartDiscovery requestID ⟨rl, rm, lu, sd, wr, ps, term⟩).1 = [] ∧
    (StartDiscovery requestID ⟨rl, rm, lu, sd, wr, ps, term⟩).2.isSome = true ∧
    ∀ ps2 term2, StartDiscovery requestID ⟨rl, rm, lu, sd, wr, ps2, term2⟩
      = StartDiscovery requestID ⟨rl, rm, lu, sd, wr, ps, term⟩ := by
  cases rl with
  | some m => exact ⟨rfl, rfl, fun ps2 t2 => rfl⟩
  | none =>
    cases rm with
    | some m => exact ⟨rfl, rfl, fun ps2 t2 => rfl⟩
    | none =>
      cases lu with
      | some m => exact ⟨rfl, rfl, fun ps2 t2 => rfl⟩
      | none =>
        cases sd with
        | some m => exact ⟨rfl, rfl, fun ps2 t2 => rfl⟩
        | none =>
          cases wr with
          | some m => exact ⟨rfl, rfl, fun ps2 t2 => rfl⟩
          | none => simp at hfail

/-- Witness for C9: a failing multicast send returns the empty list with an
error and ignores any queued datagrams. -/
theorem c9_setup_or_send_failure_witness :
    (StartDiscovery (("uuid:r").toList)
        ⟨none, none, none, none, some (("send failed").toList), [],
          TermEvent.timeout⟩).1 = [] ∧
    (StartDiscovery (("uuid:r").toList)
        ⟨none, none, none, none, some (("send failed").toList), [],
          TermEvent.timeout⟩).2.isSome = true ∧
    ∀ ps2 term2, StartDiscovery (("uuid:r").toList)
        ⟨none, none, none, none, some (("send failed").toList), ps2, term2⟩
      = StartDiscovery (("uuid:r").toList)
        ⟨none, none, none, none, some (("send failed").toList), [],
          TermEvent.timeout⟩ :=
  c9_setup_or_send_failure (("uuid:r").toList) none none none none
    (some (("send failed").toList)) [] TermEvent.timeout (by decide)

end Onvif
